import Mathlib

/-!
# esp-improv-server: the provisioning controller of `esp_improv.cpp`

A shallow embedding of `improvserver::ImprovServer` (src/src/esp_improv.cpp,
src/src/esp_improv.h).  The static members of the class become the fields of one
record that every operation receives and returns.  Calls into the BLE host stack,
the scheduler, the RPC codec and the Wi-Fi callback are recorded, in program order,
in a call trace; the values those collaborators return are inputs of the operation.
One operation runs from entry to return without interleaving another one.
-/

namespace improvserver

/-! ## Data model -/

/-- Modelled from the spec: the `improv::State` enumeration of improv.h, a header that
is not among the sources.  The three values are the ones esp_improv.cpp names:
`STATE_AUTHORIZED`, `STATE_PROVISIONING`, `STATE_PROVISIONED`. -/
inductive State
  | STATE_AUTHORIZED
  | STATE_PROVISIONING
  | STATE_PROVISIONED
  deriving DecidableEq, Repr

/-- Modelled from the spec: the `improv::Error` enumeration of improv.h, a header that
is not among the sources.  The three values are the ones esp_improv.cpp names:
`ERROR_NONE`, `ERROR_INVALID_RPC`, `ERROR_UNABLE_TO_CONNECT`. -/
inductive Error
  | ERROR_NONE
  | ERROR_INVALID_RPC
  | ERROR_UNABLE_TO_CONNECT
  deriving DecidableEq, Repr

/-- Modelled from the spec: the value the RPC codec returns (`improv::ImprovCommand` of
improv.h, a header that is not among the sources).  The spec gives the codec as
`decode(bytes) -> (ssid, password) | decode-error`; `decodeError` records the second
outcome, `ssid` and `password` are the two members esp_improv.cpp reads. -/
structure ImprovCommand where
  decodeError : Bool
  ssid : List Nat
  password : List Nat
  deriving DecidableEq, Repr

/-- Modelled from the spec: what esp_improv.cpp takes from improv.h, a header that is
not among the sources: the one-byte numeric value of each state and error, the text of
`improv::SERVICE_UUID`, and the codec `improv::parse_improv_data(data, length,
check_checksum)` (the length is the length of the byte list). -/
structure ImprovLib where
  stateByte : State → Nat
  errorByte : Error → Nat
  SERVICE_UUID : List Char
  parse_improv_data : List Nat → Bool → ImprovCommand

/-- `ESP_OK` of the platform header esp_err.h. -/
def ESP_OK : Int := 0

/-- `ESP_FAIL` of the platform header esp_err.h. -/
def ESP_FAIL : Int := -1

/-- ATT error code "unlikely error" of the host stack header ble_att.h. -/
def BLE_ATT_ERR_UNLIKELY : Int := 0x0e

/-- ATT error code "insufficient resources" of the host stack header ble_att.h. -/
def BLE_ATT_ERR_INSUFFICIENT_RES : Int := 0x11

/-- `GATT_MANUFACTURER_NAME_UUID` (esp_improv.h line 29). -/
def GATT_MANUFACTURER_NAME_UUID : Nat := 0x2A29

/-- `GATT_MODEL_NUMBER_UUID` (esp_improv.h line 30). -/
def GATT_MODEL_NUMBER_UUID : Nat := 0x2A24

/-- `ADVERTISE_NAME_EVERY_MSECS` (esp_improv.h line 32). -/
def ADVERTISE_NAME_EVERY_MSECS : Nat := 5000

/-- `ADVERTISE_NAME_FOR_MSECS` (esp_improv.h line 33). -/
def ADVERTISE_NAME_FOR_MSECS : Nat := 1000

/-- `AFTER_PROVISION_DELAY` (esp_improv.h line 34). -/
def AFTER_PROVISION_DELAY : Nat := 2500

/-- A `ble_uuid128_t`: the type tag and the 16 value bytes. -/
structure Uuid128 where
  type128 : Bool
  value : List Nat
  deriving DecidableEq, Repr

/-- The members of `struct ble_hs_adv_fields` that `advertise` assigns after the
`memset`.  `flagDiscGen` and `flagBredrUnsup` are the two bits of `fields.flags`
(`BLE_HS_ADV_F_DISC_GEN`, `BLE_HS_ADV_F_BREDR_UNSUP`); `txPwrLvlAuto` says that
`tx_pwr_lvl` holds `BLE_HS_ADV_TX_PWR_LVL_AUTO`. -/
structure AdvFields where
  flagDiscGen : Bool
  flagBredrUnsup : Bool
  tx_pwr_lvl_is_present : Bool
  txPwrLvlAuto : Bool
  name : Option (List Nat)
  name_len : Nat
  name_is_complete : Bool
  uuids128 : Option Uuid128
  num_uuids128 : Nat
  uuids128_is_complete : Bool
  svc_data_uuid16 : Option (List Nat)
  svc_data_uuid16_len : Nat
  deriving DecidableEq, Repr

/-- An entry of the trace of an operation: a call that leaves the controller (to the
BLE host stack, the scheduler, the allocator, the RPC codec or the Wi-Fi provisioning
callback) or, for `state_write`, an assignment to the static member `state`, so that
the trace shows the values `state` takes between the calls.  `delay ms` is
`vTaskDelay(pdMS_TO_TICKS(ms))`; `notify conn attr data` is `ble_gatts_notify_custom`
with the buffer `ble_hs_mbuf_from_flat` built from `data`. -/
inductive Call
  | state_write (st : State)
  | adv_set_fields (fields : AdvFields)
  | adv_start
  | adv_stop
  | terminate (conn : Nat)
  | notify (conn attr : Nat) (data : List Nat)
  | delay (ms : Nat)
  | mbuf_append (data : List Nat)
  | malloc (len : Nat)
  | mbuf_to_flat (len : Nat)
  | parse (data : List Nat)
  | provision (ssid password : List Nat)
  deriving DecidableEq, Repr

/-- The static data members of `class ImprovServer` (esp_improv.cpp lines 21-52) that
the operations read or write.  Strings are byte lists; handles are 16-bit values. -/
structure ImprovServer where
  deviceName : List Nat
  manufacturerName : List Nat
  modelName : List Nat
  advertiseName : Bool
  serviceUuid : Uuid128
  state : State
  error : Error
  capabilities : Nat
  connHandle : Nat
  errorHandle : Nat
  statusHandle : Nat
  capabilitiesHandle : Nat
  rpcResultHandle : Nat
  advertising : Bool
  advertiseOn : Bool
  deriving DecidableEq, Repr

/-- What an operation leaves behind: the static members after it, its trace in
program order, and its return value. -/
structure Out (α : Type) where
  self : ImprovServer
  calls : List Call
  ret : α

/-- A `struct ble_gap_event` as `gapEvent` reads it: the event type with the members
of the union it looks at.  `other` is any type the `switch` has no case for. -/
inductive GapEvent
  | BLE_GAP_EVENT_CONNECT (status : Int) (conn_handle : Nat)
  | BLE_GAP_EVENT_DISCONNECT (reason : Int)
  | BLE_GAP_EVENT_ADV_COMPLETE
  | BLE_GAP_EVENT_SUBSCRIBE (attr_handle : Nat)
  | BLE_GAP_EVENT_MTU (conn_handle : Nat) (value : Nat)
  | other (type : Nat)
  deriving DecidableEq, Repr

/-- Return values of the two host-stack calls inside one run of `advertise`:
`ble_gap_adv_set_fields` and `ble_gap_adv_start`. -/
structure AdvHost where
  setFieldsRc : Int
  startRc : Int
  deriving DecidableEq, Repr

/-! ## strToUuid (esp_improv.cpp lines 292-314) -/

/-- Value of a hexadecimal digit, if the character is one. -/
def hexVal (c : Char) : Option Nat :=
  if '0' ≤ c ∧ c ≤ '9' then some (c.toNat - '0'.toNat)
  else if 'a' ≤ c ∧ c ≤ 'f' then some (c.toNat - 'a'.toNat + 10)
  else if 'A' ≤ c ∧ c ≤ 'F' then some (c.toNat - 'A'.toNat + 10)
  else none

/-- `sscanf(p, "%2hhx", &b)` on a text that starts with no white space, sign or `0x`:
at most two hexadecimal digits are read; with no digit at the front nothing is
stored (`none`). -/
def sscanf_2hhx (p : List Char) : Option Nat :=
  match p with
  | [] => none
  | c :: rest =>
    match hexVal c with
    | none => none
    | some hi =>
      match rest with
      | [] => some hi
      | d :: _ =>
        match hexVal d with
        | none => some hi
        | some lo => some (hi * 16 + lo)

/-- `while (uuidStr[si] == '-') si++;` the index after the run of dashes at `si`
(the terminating NUL of the C string stops the scan at the end of the text). -/
def skipDashes (uuidStr : List Char) (si : Nat) : Nat :=
  si + ((uuidStr.drop si).takeWhile (fun c => c == '-')).length

/-- Loop state of `strToUuid`: the index `i` (a `size_t`, 32 bits on the target), the
read position `si`, the value array, the indices written so far (an index above 15
is a write outside the array) and the number of iterations done. -/
structure UuidLoop where
  i : Nat
  si : Nat
  value : List Nat
  written : List Nat
  iterations : Nat
  deriving DecidableEq, Repr

/-- One run of the body of the `for` loop followed by `i--`. -/
def strToUuidBody (uuidStr : List Char) (st : UuidLoop) : UuidLoop :=
  let si1 := skipDashes uuidStr st.si
  match sscanf_2hhx (uuidStr.drop si1) with
  | some b =>
    { i := (st.i + 2 ^ 32 - 1) % 2 ^ 32, si := si1 + 2,
      value := st.value.set st.i b, written := st.written ++ [st.i],
      iterations := st.iterations + 1 }
  | none =>
    { i := (st.i + 2 ^ 32 - 1) % 2 ^ 32, si := si1 + 2,
      value := st.value, written := st.written,
      iterations := st.iterations + 1 }

/-- The `for (i = 15; si < ulen; i--)` loop; `fuel` bounds the iterations (every
iteration advances `si` by at least 2, so the length of the text is enough). -/
def strToUuidLoop (uuidStr : List Char) : Nat → UuidLoop → UuidLoop
  | 0, st => st
  | fuel + 1, st =>
    if st.si < uuidStr.length then
      strToUuidLoop uuidStr fuel (strToUuidBody uuidStr st)
    else st

/-- Final loop state of `strToUuid` on the text `uuidStr` (allocation succeeding). -/
def strToUuidRun (uuidStr : List Char) : UuidLoop :=
  strToUuidLoop uuidStr uuidStr.length
    { i := 15, si := 0, value := List.replicate 16 0, written := [], iterations := 0 }

/-- `strToUuid` (allocation succeeding): a zeroed `ble_uuid128_t` of type
`BLE_UUID_TYPE_128` whose value bytes the loop fills from index 15 downwards. -/
def strToUuid (uuidStr : List Char) : Uuid128 :=
  { type128 := true, value := (strToUuidRun uuidStr).value }

/-! ## Operations of `ImprovServer` -/

/-- A `std::string` seen through `c_str()` by a reader of C strings, and a C string
taken into a `std::string`: the bytes before the first NUL. -/
def c_str (str : List Nat) : List Nat :=
  str.takeWhile (fun b => b != 0)

/-- The constructor (esp_improv.h lines 100-104) on top of the static initialisers
(esp_improv.cpp lines 25-52): the three identity strings are stored, everything else
has its initial value. -/
def ImprovServer.new (L : ImprovLib) (btname manufacturer model : List Nat) :
    ImprovServer :=
  { deviceName := c_str btname
    manufacturerName := c_str manufacturer
    modelName := c_str model
    advertiseName := false
    serviceUuid := strToUuid L.SERVICE_UUID
    state := State.STATE_AUTHORIZED
    error := Error.ERROR_NONE
    capabilities := 0
    connHandle := 0
    errorHandle := 0
    statusHandle := 0
    capabilitiesHandle := 0
    rpcResultHandle := 0
    advertising := false
    advertiseOn := false }

/-- The `fields` that `advertise` builds (esp_improv.cpp lines 111-134): the name
payload when `advertiseName` is set, else the service UUID with the 8 bytes of
service data.  `name_len` is a `uint8_t`. -/
def ImprovServer.advFields (L : ImprovLib) (s : ImprovServer) : AdvFields :=
  if s.advertiseName then
    { flagDiscGen := true, flagBredrUnsup := true
      tx_pwr_lvl_is_present := true, txPwrLvlAuto := true
      name := some s.deviceName, name_len := s.deviceName.length % 256
      name_is_complete := true
      uuids128 := none, num_uuids128 := 0, uuids128_is_complete := false
      svc_data_uuid16 := none, svc_data_uuid16_len := 0 }
  else
    { flagDiscGen := true, flagBredrUnsup := true
      tx_pwr_lvl_is_present := false, txPwrLvlAuto := false
      name := none, name_len := 0, name_is_complete := false
      uuids128 := some s.serviceUuid, num_uuids128 := 1, uuids128_is_complete := false
      svc_data_uuid16 := some [0x77, 0x46, L.stateByte s.state % 256, 0, 0, 0, 0, 0]
      svc_data_uuid16_len := 8 }

/-- `ImprovServer::advertise` (esp_improv.cpp lines 102-154). -/
def ImprovServer.advertise (L : ImprovLib) (h : AdvHost) (s : ImprovServer) : Out Int :=
  let s1 := { s with advertising := true }
  if h.setFieldsRc ≠ 0 then
    { self := s1, calls := [Call.adv_set_fields (s1.advFields L)], ret := ESP_FAIL }
  else if h.startRc ≠ 0 then
    { self := s1, calls := [Call.adv_set_fields (s1.advFields L), Call.adv_start],
      ret := ESP_FAIL }
  else
    { self := s1, calls := [Call.adv_set_fields (s1.advFields L), Call.adv_start],
      ret := ESP_OK }

/-- `ImprovServer::gapEvent` (esp_improv.cpp lines 54-100); the value `advertise`
returns is dropped. -/
def ImprovServer.gapEvent (L : ImprovLib) (h : AdvHost) (event : GapEvent)
    (s : ImprovServer) : Out Int :=
  match event with
  | GapEvent.BLE_GAP_EVENT_CONNECT status conn_handle =>
    if status ≠ 0 then
      let o := ImprovServer.advertise L h
        { s with connHandle := 0, state := State.STATE_AUTHORIZED,
                 error := Error.ERROR_NONE }
      { self := o.self, calls := Call.state_write State.STATE_AUTHORIZED :: o.calls,
        ret := ESP_OK }
    else
      let o := ImprovServer.advertise L h
        { s with connHandle := conn_handle, state := State.STATE_AUTHORIZED,
                 error := Error.ERROR_NONE }
      { self := o.self, calls := Call.state_write State.STATE_AUTHORIZED :: o.calls,
        ret := ESP_OK }
  | GapEvent.BLE_GAP_EVENT_DISCONNECT _ =>
    let o := ImprovServer.advertise L h { s with connHandle := 0 }
    { self := o.self, calls := o.calls, ret := ESP_OK }
  | GapEvent.BLE_GAP_EVENT_ADV_COMPLETE =>
    let o := ImprovServer.advertise L h s
    { self := o.self, calls := o.calls, ret := ESP_OK }
  | GapEvent.BLE_GAP_EVENT_SUBSCRIBE _ => { self := s, calls := [], ret := ESP_OK }
  | GapEvent.BLE_GAP_EVENT_MTU _ _ => { self := s, calls := [], ret := ESP_OK }
  | GapEvent.other _ => { self := s, calls := [], ret := ESP_OK }

/-- `ImprovServer::StopAdvertising` (esp_improv.cpp lines 186-190). -/
def ImprovServer.StopAdvertising (s : ImprovServer) : Out Int :=
  { self := { s with advertiseOn := false }, calls := [], ret := ESP_OK }

/-- `ImprovServer::StartAdvertising` (esp_improv.cpp lines 192-196). -/
def ImprovServer.StartAdvertising (s : ImprovServer) : Out Int :=
  { self := { s with advertiseOn := true }, calls := [], ret := ESP_OK }

/-- Return values of the host-stack calls of one iteration of the loop of
`advertiseTask`, in program order: the `ble_gap_adv_stop` of line 207 or of line 235
(`stopRc`), `ble_gap_terminate` (line 220), the `advertise` of line 229 or of line 240
(`adv`), the `ble_gap_adv_stop` of line 243 (`stopRc2`), the `advertise` of line 249
(`adv2`). -/
structure TickHost where
  stopRc : Int
  terminateRc : Int
  adv : AdvHost
  stopRc2 : Int
  adv2 : AdvHost
  deriving DecidableEq, Repr

/-- Lines 214-226 of `advertiseTask`: the sweep that ends `STATE_PROVISIONED`. -/
def ImprovServer.provisionedSweep (s : ImprovServer) : ImprovServer × List Call :=
  if s.state = State.STATE_PROVISIONED then
    if s.connHandle ≠ 0 then
      ({ s with state := State.STATE_AUTHORIZED },
        [Call.delay AFTER_PROVISION_DELAY, Call.terminate s.connHandle,
         Call.state_write State.STATE_AUTHORIZED])
    else
      ({ s with state := State.STATE_AUTHORIZED },
        [Call.delay AFTER_PROVISION_DELAY, Call.state_write State.STATE_AUTHORIZED])
  else (s, [])

/-- One iteration of the `while (true)` loop of `ImprovServer::advertiseTask`
(esp_improv.cpp lines 205-253), from the test of line 205 to the `continue` or the
final `vTaskDelay` that ends it. -/
def ImprovServer.advertiseTaskIter (L : ImprovLib) (h : TickHost) (s : ImprovServer) :
    Out Unit :=
  if s.advertising && !s.advertiseOn then
    { self := { s with advertising := false }, calls := [Call.adv_stop], ret := () }
  else
    let (s1, c1) := s.provisionedSweep
    if s1.advertiseOn && !s1.advertising then
      let o := ImprovServer.advertise L h.adv s1
      { self := { o.self with advertising := true },
        calls := c1 ++ o.calls ++ [Call.delay 100], ret := () }
    else if s1.advertiseOn && s1.advertising then
      let s2 := { s1 with advertiseName := true }
      let c2 := c1 ++ [Call.delay ADVERTISE_NAME_EVERY_MSECS, Call.adv_stop]
      if h.stopRc ≠ 0 then
        { self := s2, calls := c2, ret := () }
      else
        let o := ImprovServer.advertise L h.adv s2
        let c3 := c2 ++ o.calls ++ [Call.delay ADVERTISE_NAME_FOR_MSECS, Call.adv_stop]
        if h.stopRc2 ≠ 0 then
          { self := o.self, calls := c3, ret := () }
        else
          let o2 := ImprovServer.advertise L h.adv2 { o.self with advertiseName := false }
          { self := { o2.self with advertising := true },
            calls := c3 ++ o2.calls, ret := () }
    else
      { self := s1, calls := c1 ++ [Call.delay 100], ret := () }

/-- `ImprovServer::gattSvrChrDeviceInfo` (esp_improv.cpp lines 316-334) for a
characteristic whose 16-bit UUID is `uuid`; `appendRc` is what `os_mbuf_append`
returns.  `none` is the failed `assert(0)`. -/
def ImprovServer.gattSvrChrDeviceInfo (uuid : Nat) (appendRc : Int) (s : ImprovServer) :
    Option (Out Int) :=
  if uuid = GATT_MODEL_NUMBER_UUID then
    some { self := s, calls := [Call.mbuf_append s.manufacturerName],
           ret := if appendRc = 0 then 0 else BLE_ATT_ERR_INSUFFICIENT_RES }
  else if uuid = GATT_MANUFACTURER_NAME_UUID then
    some { self := s, calls := [Call.mbuf_append s.modelName],
           ret := if appendRc = 0 then 0 else BLE_ATT_ERR_INSUFFICIENT_RES }
  else none

/-- `ImprovServer::gattSvrChrStatus` (esp_improv.cpp lines 336-341). -/
def ImprovServer.gattSvrChrStatus (L : ImprovLib) (appendRc : Int) (s : ImprovServer) :
    Out Int :=
  { self := s, calls := [Call.mbuf_append [L.stateByte s.state]],
    ret := if appendRc = 0 then 0 else BLE_ATT_ERR_INSUFFICIENT_RES }

/-- `ImprovServer::gattSvrChrStatusNotify` (esp_improv.cpp lines 343-352);
`notifyRc` is what `ble_gatts_notify_custom` returns. -/
def ImprovServer.gattSvrChrStatusNotify (L : ImprovLib) (notifyRc : Int)
    (s : ImprovServer) : Out Int :=
  if s.connHandle ≠ 0 then
    { self := s, calls := [Call.notify s.connHandle s.statusHandle [L.stateByte s.state]],
      ret := notifyRc }
  else
    { self := s, calls := [], ret := 0 }

/-- `ImprovServer::gattSvrChrErrorNotify` (esp_improv.cpp lines 354-363). -/
def ImprovServer.gattSvrChrErrorNotify (L : ImprovLib) (notifyRc : Int)
    (s : ImprovServer) : Out Int :=
  if s.connHandle ≠ 0 then
    { self := s, calls := [Call.notify s.connHandle s.errorHandle [L.errorByte s.error]],
      ret := notifyRc }
  else
    { self := s, calls := [], ret := 0 }

/-- `ImprovServer::gattSvrChrError` (esp_improv.cpp lines 365-370). -/
def ImprovServer.gattSvrChrError (L : ImprovLib) (appendRc : Int) (s : ImprovServer) :
    Out Int :=
  { self := s, calls := [Call.mbuf_append [L.errorByte s.error]],
    ret := if appendRc = 0 then 0 else BLE_ATT_ERR_INSUFFICIENT_RES }

/-- What the collaborators answer during one run of `gattSvrChrRpcWrite`: whether
`malloc` returns a buffer, what `ble_hs_mbuf_to_flat` returns, what the two notify
calls return (the handler drops both), and the Wi-Fi provisioning callback
`onProvision` as a function of the SSID and password it is given. -/
structure RpcWriteHost where
  mallocOk : Bool
  flatRc : Int
  notifyRc : Int
  notifyRc2 : Int
  onProvision : List Nat → List Nat → Int

/-- `ImprovServer::gattSvrChrRpcWrite` (esp_improv.cpp lines 372-414) on a write whose
payload is `om`. -/
def ImprovServer.gattSvrChrRpcWrite (L : ImprovLib) (h : RpcWriteHost) (om : List Nat)
    (s : ImprovServer) : Out Int :=
  let len := om.length
  if len > 0 then
    if h.mallocOk then
      if h.flatRc = 0 then
        let cmd := L.parse_improv_data om true
        let n1 := ImprovServer.gattSvrChrStatusNotify L h.notifyRc
          { s with state := State.STATE_PROVISIONING }
        let err := h.onProvision (c_str cmd.ssid) (c_str cmd.password)
        let c1 := [Call.malloc len, Call.mbuf_to_flat len, Call.parse om,
          Call.state_write State.STATE_PROVISIONING] ++ n1.calls ++
          [Call.provision (c_str cmd.ssid) (c_str cmd.password)]
        if err ≠ ESP_OK then
          let n2 := ImprovServer.gattSvrChrErrorNotify L h.notifyRc2
            { n1.self with error := Error.ERROR_UNABLE_TO_CONNECT }
          { self := n2.self, calls := c1 ++ n2.calls, ret := 0 }
        else
          let n2 := ImprovServer.gattSvrChrStatusNotify L h.notifyRc2
            { n1.self with state := State.STATE_PROVISIONED }
          { self := n2.self,
            calls := c1 ++ [Call.state_write State.STATE_PROVISIONED] ++ n2.calls,
            ret := 0 }
      else
        let n := ImprovServer.gattSvrChrErrorNotify L h.notifyRc
          { s with error := Error.ERROR_INVALID_RPC }
        { self := n.self, calls := [Call.malloc len, Call.mbuf_to_flat len] ++ n.calls,
          ret := BLE_ATT_ERR_UNLIKELY }
    else
      { self := s, calls := [Call.malloc len], ret := 0 }
  else
    { self := s, calls := [], ret := 0 }

/-- `ImprovServer::gattSvrChrRpcResult` (esp_improv.cpp lines 416-428); `appendRc` and
`appendRc2` are what the first and the second `os_mbuf_append` return. -/
def ImprovServer.gattSvrChrRpcResult (appendRc appendRc2 : Int) (s : ImprovServer) :
    Out Int :=
  if appendRc = 0 then
    { self := s, calls := [Call.mbuf_append [0], Call.mbuf_append [0]],
      ret := if appendRc2 = 0 then 0 else BLE_ATT_ERR_INSUFFICIENT_RES }
  else
    { self := s, calls := [Call.mbuf_append [0]], ret := BLE_ATT_ERR_INSUFFICIENT_RES }

/-- `ImprovServer::gattSvrChrCapabilities` (esp_improv.cpp lines 430-435). -/
def ImprovServer.gattSvrChrCapabilities (appendRc : Int) (s : ImprovServer) : Out Int :=
  { self := s, calls := [Call.mbuf_append [s.capabilities]],
    ret := if appendRc = 0 then 0 else BLE_ATT_ERR_INSUFFICIENT_RES }

/-! ## The step relation -/

/-- One operation on the controller with what its collaborators answer: a GAP event,
a GATT read of one of the six readable characteristics, a write of the RPC-command
characteristic, one of the two notification helpers, one iteration of the loop of
`advertiseTask`, `StartAdvertising`, `StopAdvertising`. -/
inductive Op
  | gapEvent (h : AdvHost) (event : GapEvent)
  | deviceInfoRead (uuid : Nat) (appendRc : Int)
  | statusRead (appendRc : Int)
  | errorRead (appendRc : Int)
  | rpcResultRead (appendRc appendRc2 : Int)
  | capabilitiesRead (appendRc : Int)
  | rpcWrite (h : RpcWriteHost) (om : List Nat)
  | statusNotify (notifyRc : Int)
  | errorNotify (notifyRc : Int)
  | tick (h : TickHost)
  | StartAdvertising
  | StopAdvertising

/-- The controller and the call trace after one operation; `none` when the operation
ends in the failed `assert(0)` of `gattSvrChrDeviceInfo`. -/
def step (L : ImprovLib) (op : Op) (s : ImprovServer) :
    Option (ImprovServer × List Call) :=
  match op with
  | Op.gapEvent h event =>
    let o := ImprovServer.gapEvent L h event s
    some (o.self, o.calls)
  | Op.deviceInfoRead uuid appendRc =>
    (ImprovServer.gattSvrChrDeviceInfo uuid appendRc s).map (fun o => (o.self, o.calls))
  | Op.statusRead appendRc =>
    let o := ImprovServer.gattSvrChrStatus L appendRc s
    some (o.self, o.calls)
  | Op.errorRead appendRc =>
    let o := ImprovServer.gattSvrChrError L appendRc s
    some (o.self, o.calls)
  | Op.rpcResultRead appendRc appendRc2 =>
    let o := ImprovServer.gattSvrChrRpcResult appendRc appendRc2 s
    some (o.self, o.calls)
  | Op.capabilitiesRead appendRc =>
    let o := ImprovServer.gattSvrChrCapabilities appendRc s
    some (o.self, o.calls)
  | Op.rpcWrite h om =>
    let o := ImprovServer.gattSvrChrRpcWrite L h om s
    some (o.self, o.calls)
  | Op.statusNotify notifyRc =>
    let o := ImprovServer.gattSvrChrStatusNotify L notifyRc s
    some (o.self, o.calls)
  | Op.errorNotify notifyRc =>
    let o := ImprovServer.gattSvrChrErrorNotify L notifyRc s
    some (o.self, o.calls)
  | Op.tick h =>
    let o := ImprovServer.advertiseTaskIter L h s
    some (o.self, o.calls)
  | Op.StartAdvertising =>
    let o := ImprovServer.StartAdvertising s
    some (o.self, o.calls)
  | Op.StopAdvertising =>
    let o := ImprovServer.StopAdvertising s
    some (o.self, o.calls)

/-- The controller after a sequence of GAP events, each with what the host stack
answers to the `advertise` it causes: `gapEvent` applied from left to right. -/
def gapEvents (L : ImprovLib) (events : List (AdvHost × GapEvent)) (s : ImprovServer) :
    ImprovServer :=
  events.foldl (fun acc e => (ImprovServer.gapEvent L e.1 e.2 acc).self) s

/-! ## A concrete codec for evaluating the operations -/

/-- A codec of the shape of `improv::parse_improv_data`, used only to run the
operations on concrete inputs: `[command, length, ssid length, ssid .., password
length, password .., checksum]`, command 1 carrying Wi-Fi settings, the checksum
being the sum of the bytes before it modulo 256. -/
def sampleParse (data : List Nat) (check_checksum : Bool) : ImprovCommand :=
  match data with
  | command :: length :: body =>
    if length + (if check_checksum then 1 else 0) ≠ body.length then
      { decodeError := true, ssid := [], password := [] }
    else if check_checksum && (data.dropLast.sum % 256 != data.getLastD 0) then
      { decodeError := true, ssid := [], password := [] }
    else if command = 1 then
      match body with
      | ssidLen :: rest =>
        match rest.drop ssidLen with
        | passLen :: rest2 =>
          { decodeError := false, ssid := rest.take ssidLen,
            password := (rest2.take passLen) }
        | [] => { decodeError := true, ssid := [], password := [] }
      | [] => { decodeError := true, ssid := [], password := [] }
    else
      { decodeError := true, ssid := [], password := [] }
  | _ => { decodeError := true, ssid := [], password := [] }

/-- One instance of the improv.h parameters, used only to run the operations on
concrete inputs: state bytes 2, 3, 4, error bytes 0, 1, 3, a service UUID text and
`sampleParse`. -/
def sampleLib : ImprovLib :=
  { stateByte := fun st =>
      match st with
      | State.STATE_AUTHORIZED => 2
      | State.STATE_PROVISIONING => 3
      | State.STATE_PROVISIONED => 4
    errorByte := fun e =>
      match e with
      | Error.ERROR_NONE => 0
      | Error.ERROR_INVALID_RPC => 1
      | Error.ERROR_UNABLE_TO_CONNECT => 3
    SERVICE_UUID := "00467768-6228-2272-4663-277478268000".toList
    parse_improv_data := sampleParse }

/-- A write payload for `sampleParse`: Wi-Fi settings with SSID "home" and password
"secret", with its checksum. -/
def homeFrame : List Nat :=
  [1, 12, 4, 104, 111, 109, 101, 6, 115, 101, 99, 114, 101, 116, 70]

/-- Collaborator answers of a write in which the allocation and the copy succeed and
the Wi-Fi provisioning callback returns `ESP_OK`. -/
def hostProvisionOk : RpcWriteHost :=
  { mallocOk := true, flatRc := 0, notifyRc := 0, notifyRc2 := 0,
    onProvision := fun _ _ => ESP_OK }

/-- Collaborator answers of a write in which the allocation and the copy succeed and
the Wi-Fi provisioning callback returns `ESP_FAIL`. -/
def hostProvisionFail : RpcWriteHost :=
  { mallocOk := true, flatRc := 0, notifyRc := 0, notifyRc2 := 0,
    onProvision := fun _ _ => ESP_FAIL }

/-- The controller right after construction with name "dev", manufacturer "Acme" and
model "M1", over `sampleLib`. -/
def sampleServer : ImprovServer :=
  ImprovServer.new sampleLib [100, 101, 118] [65, 99, 109, 101] [77, 49]

/-- Host answers of an `advertise` in which both calls succeed. -/
def advOk : AdvHost := { setFieldsRc := 0, startRc := 0 }

/-- The controller after a sequence of operations, applied from left to right with
`step`; `none` as soon as one of them ends in the failed assertion. -/
def steps (L : ImprovLib) (ops : List Op) (s : ImprovServer) : Option ImprovServer :=
  ops.foldl (fun acc op => acc.bind (fun t => (step L op t).map (fun r => r.1))) (some s)

/-- Host answers of a loop iteration in which every call succeeds. -/
def tickOk : TickHost :=
  { stopRc := 0, terminateRc := 0, adv := advOk, stopRc2 := 0, adv2 := advOk }

/-- Host answers of a loop iteration in which the `ble_gap_adv_stop` of line 235
fails (return value 2) and every other call succeeds. -/
def tickStopFails : TickHost :=
  { stopRc := 2, terminateRc := 0, adv := advOk, stopRc2 := 0, adv2 := advOk }

/-- A connected controller (handle 1) in state Provisioned with advertising enabled
and active. -/
def provisionedServer : ImprovServer :=
  { sampleServer with
    state := State.STATE_PROVISIONED
    connHandle := 1
    advertiseOn := true
    advertising := true }

/-- The controller of `sampleServer` with advertising enabled and active. -/
def advertisingServer : ImprovServer :=
  { sampleServer with
    advertiseOn := true
    advertising := true }

/-! ## Shared lemmas -/

theorem advertise_self (L : ImprovLib) (h : AdvHost) (s : ImprovServer) :
    (ImprovServer.advertise L h s).self = { s with advertising := true } := by
  unfold ImprovServer.advertise
  split_ifs <;> rfl

theorem gapEvent_connect_self (L : ImprovLib) (h : AdvHost) (c : Nat)
    (s : ImprovServer) :
    (ImprovServer.gapEvent L h (GapEvent.BLE_GAP_EVENT_CONNECT 0 c) s).self =
      { s with connHandle := c, state := State.STATE_AUTHORIZED,
               error := Error.ERROR_NONE, advertising := true } := by
  simp [ImprovServer.gapEvent, advertise_self]

theorem gapEvent_connect_failed_self (L : ImprovLib) (h : AdvHost) (status : Int)
    (c : Nat) (s : ImprovServer) (hst : status ≠ 0) :
    (ImprovServer.gapEvent L h (GapEvent.BLE_GAP_EVENT_CONNECT status c) s).self =
      { s with connHandle := 0, state := State.STATE_AUTHORIZED,
               error := Error.ERROR_NONE, advertising := true } := by
  simp [ImprovServer.gapEvent, advertise_self, hst]

theorem gapEvent_disconnect_self (L : ImprovLib) (h : AdvHost) (reason : Int)
    (s : ImprovServer) :
    (ImprovServer.gapEvent L h (GapEvent.BLE_GAP_EVENT_DISCONNECT reason) s).self =
      { s with connHandle := 0, advertising := true } := by
  simp [ImprovServer.gapEvent, advertise_self]

theorem gapEvents_concat (L : ImprovLib) (pre : List (AdvHost × GapEvent))
    (e : AdvHost × GapEvent) (s : ImprovServer) :
    gapEvents L (pre ++ [e]) s = (ImprovServer.gapEvent L e.1 e.2 (gapEvents L pre s)).self := by
  simp [gapEvents, List.foldl_append]

theorem provisionedSweep_state (s : ImprovServer)
    (hs : s.state ≠ State.STATE_PROVISIONED) : s.provisionedSweep = (s, []) := by
  simp [ImprovServer.provisionedSweep, hs]

theorem advertiseTaskIter_state (L : ImprovLib) (h : TickHost) (s : ImprovServer)
    (hs : s.state ≠ State.STATE_PROVISIONED) :
    (ImprovServer.advertiseTaskIter L h s).self.state = s.state := by
  unfold ImprovServer.advertiseTaskIter
  rw [provisionedSweep_state s hs]
  simp only []
  split_ifs <;> simp [advertise_self]

theorem gapEvent_state (L : ImprovLib) (h : AdvHost) (event : GapEvent)
    (s : ImprovServer) :
    (ImprovServer.gapEvent L h event s).self.state = s.state ∨
    (ImprovServer.gapEvent L h event s).self.state = State.STATE_AUTHORIZED := by
  cases event with
  | BLE_GAP_EVENT_CONNECT status c =>
    right
    by_cases hst : status = 0
    · subst hst
      rw [gapEvent_connect_self]
    · rw [gapEvent_connect_failed_self L h status c s hst]
  | BLE_GAP_EVENT_DISCONNECT reason =>
    left
    rw [gapEvent_disconnect_self]
  | BLE_GAP_EVENT_ADV_COMPLETE =>
    left
    simp [ImprovServer.gapEvent, advertise_self]
  | BLE_GAP_EVENT_SUBSCRIBE a => left; rfl
  | BLE_GAP_EVENT_MTU c v => left; rfl
  | other t => left; rfl

theorem statusNotify_self (L : ImprovLib) (rc : Int) (s : ImprovServer) :
    (ImprovServer.gattSvrChrStatusNotify L rc s).self = s := by
  unfold ImprovServer.gattSvrChrStatusNotify
  split_ifs <;> rfl

theorem errorNotify_self (L : ImprovLib) (rc : Int) (s : ImprovServer) :
    (ImprovServer.gattSvrChrErrorNotify L rc s).self = s := by
  unfold ImprovServer.gattSvrChrErrorNotify
  split_ifs <;> rfl

theorem rpcWrite_state (L : ImprovLib) (h : RpcWriteHost) (om : List Nat)
    (s : ImprovServer) :
    (ImprovServer.gattSvrChrRpcWrite L h om s).self.state =
      if 0 < om.length ∧ h.mallocOk = true ∧ h.flatRc = 0 then
        (if h.onProvision (c_str (L.parse_improv_data om true).ssid)
            (c_str (L.parse_improv_data om true).password) = ESP_OK
         then State.STATE_PROVISIONED else State.STATE_PROVISIONING)
      else s.state := by
  by_cases hlen : 0 < om.length <;> by_cases hm : h.mallocOk = true <;>
    by_cases hf : h.flatRc = 0 <;>
    by_cases hp : h.onProvision (c_str (L.parse_improv_data om true).ssid)
            (c_str (L.parse_improv_data om true).password) = ESP_OK <;>
    simp [ImprovServer.gattSvrChrRpcWrite, statusNotify_self, errorNotify_self,
      hlen, hm, hf, hp]

theorem rpcWrite_provision_mem (L : ImprovLib) (h : RpcWriteHost) (om : List Nat)
    (s : ImprovServer) (hlen : 0 < om.length) (hm : h.mallocOk = true)
    (hf : h.flatRc = 0) :
    Call.provision (c_str (L.parse_improv_data om true).ssid)
      (c_str (L.parse_improv_data om true).password) ∈
        (ImprovServer.gattSvrChrRpcWrite L h om s).calls := by
  by_cases hp : h.onProvision (c_str (L.parse_improv_data om true).ssid)
            (c_str (L.parse_improv_data om true).password) = ESP_OK <;>
    simp [ImprovServer.gattSvrChrRpcWrite, hlen, hm, hf, hp]

theorem advertise_calls (L : ImprovLib) (h : AdvHost) (s : ImprovServer) :
    (ImprovServer.advertise L h s).calls =
      Call.adv_set_fields (ImprovServer.advFields L { s with advertising := true }) ::
        (if h.setFieldsRc = 0 then [Call.adv_start] else []) := by
  unfold ImprovServer.advertise
  split_ifs <;> simp_all

theorem advertiseTaskIter_no_terminate (L : ImprovLib) (h : TickHost)
    (s : ImprovServer) (hs : s.state ≠ State.STATE_PROVISIONED) (c : Nat) :
    Call.terminate c ∉ (ImprovServer.advertiseTaskIter L h s).calls := by
  unfold ImprovServer.advertiseTaskIter
  rw [provisionedSweep_state s hs]
  simp only []
  split_ifs <;> simp [advertise_calls]

theorem provisionedSweep_provisioned (s : ImprovServer)
    (hs : s.state = State.STATE_PROVISIONED) :
    s.provisionedSweep =
      ({ s with state := State.STATE_AUTHORIZED },
        [Call.delay AFTER_PROVISION_DELAY] ++
        (if s.connHandle ≠ 0 then [Call.terminate s.connHandle] else []) ++
        [Call.state_write State.STATE_AUTHORIZED]) := by
  unfold ImprovServer.provisionedSweep
  split_ifs <;> simp_all

/-! ## C1: disconnect -/

/-- C1 (the code departs from the claim): `gapEvent` on `BLE_GAP_EVENT_DISCONNECT`
clears the connection handle and leaves `state` and `error` as they were; in
particular the run connect (handle 1), write with a failing provisioning callback,
disconnect ends with `state = STATE_PROVISIONING` and
`error = ERROR_UNABLE_TO_CONNECT`, not Authorized and None. -/
theorem C1_disconnect_keeps_state_and_error :
    (∀ (L : ImprovLib) (h : AdvHost) (reason : Int) (s : ImprovServer),
      (ImprovServer.gapEvent L h (GapEvent.BLE_GAP_EVENT_DISCONNECT reason) s).self.state
          = s.state ∧
      (ImprovServer.gapEvent L h (GapEvent.BLE_GAP_EVENT_DISCONNECT reason) s).self.error
          = s.error ∧
      (ImprovServer.gapEvent L h
          (GapEvent.BLE_GAP_EVENT_DISCONNECT reason) s).self.connHandle = 0) ∧
    (∀ (L : ImprovLib),
      let s1 := (ImprovServer.gapEvent L { setFieldsRc := 0, startRc := 0 }
        (GapEvent.BLE_GAP_EVENT_CONNECT 0 1) (ImprovServer.new L [100] [65] [77])).self
      let s2 := (ImprovServer.gattSvrChrRpcWrite L
        { mallocOk := true, flatRc := 0, notifyRc := 0, notifyRc2 := 0,
          onProvision := fun _ _ => ESP_FAIL } [1] s1).self
      let s3 := (ImprovServer.gapEvent L { setFieldsRc := 0, startRc := 0 }
        (GapEvent.BLE_GAP_EVENT_DISCONNECT 19) s2).self
      s3.state = State.STATE_PROVISIONING ∧
      s3.error = Error.ERROR_UNABLE_TO_CONNECT ∧ s3.connHandle = 0) := by
  refine ⟨fun L h reason s => ?_, fun L => ?_⟩
  · rw [gapEvent_disconnect_self]
    exact ⟨rfl, rfl, rfl⟩
  · simp [gapEvent_disconnect_self, gapEvent_connect_self,
      ImprovServer.gattSvrChrRpcWrite, ImprovServer.gattSvrChrStatusNotify,
      ImprovServer.gattSvrChrErrorNotify, ESP_FAIL, ESP_OK]

/-! ## C2: a payload the codec rejects -/

/-- C2 (the code departs from the claim): on a non-empty write made while connected
(handle `c + 1`, state Authorized, error None), with the copy out of the transport
buffer succeeding and a codec that rejects the payload (every payload),
`gattSvrChrRpcWrite` never looks at the decode outcome: it sets `state` to
Provisioning, emits a status notification and invokes the Wi-Fi provisioning callback
with the SSID and password members of the rejected command; `state` ends Provisioned
or Provisioning and `error` None or UnableToConnect according to the callback, never
InvalidRpc, and the handler returns 0.  So it is on the payload `[1, 0, 255]` (wrong
checksum) over `sampleLib`. -/
theorem C2_rejected_payload_is_provisioned :
    (∀ (L : ImprovLib) (h : RpcWriteHost) (b : Nat) (rest : List Nat) (c : Nat)
        (ssid password : List Nat) (s : ImprovServer),
      let Lrej : ImprovLib := { L with
        parse_improv_data := fun _ _ =>
          { decodeError := true, ssid := ssid, password := password } }
      let o := ImprovServer.gattSvrChrRpcWrite Lrej
        { h with mallocOk := true, flatRc := 0 } (b :: rest)
        { s with connHandle := c + 1, state := State.STATE_AUTHORIZED,
                 error := Error.ERROR_NONE }
      (Lrej.parse_improv_data (b :: rest) true).decodeError = true ∧
      o.self.state = (if h.onProvision (c_str ssid) (c_str password) = ESP_OK
        then State.STATE_PROVISIONED else State.STATE_PROVISIONING) ∧
      o.self.error = (if h.onProvision (c_str ssid) (c_str password) = ESP_OK
        then Error.ERROR_NONE else Error.ERROR_UNABLE_TO_CONNECT) ∧
      o.calls =
        [Call.malloc (rest.length + 1), Call.mbuf_to_flat (rest.length + 1),
         Call.parse (b :: rest), Call.state_write State.STATE_PROVISIONING,
         Call.notify (c + 1) s.statusHandle [L.stateByte State.STATE_PROVISIONING],
         Call.provision (c_str ssid) (c_str password)] ++
        (if h.onProvision (c_str ssid) (c_str password) = ESP_OK
         then [Call.state_write State.STATE_PROVISIONED,
               Call.notify (c + 1) s.statusHandle [L.stateByte State.STATE_PROVISIONED]]
         else [Call.notify (c + 1) s.errorHandle
                 [L.errorByte Error.ERROR_UNABLE_TO_CONNECT]]) ∧
      o.ret = 0) ∧
    ((sampleLib.parse_improv_data [1, 0, 255] true).decodeError = true ∧
     (ImprovServer.gattSvrChrRpcWrite sampleLib hostProvisionOk [1, 0, 255]
        { sampleServer with connHandle := 1 }).self.state = State.STATE_PROVISIONED ∧
     (ImprovServer.gattSvrChrRpcWrite sampleLib hostProvisionOk [1, 0, 255]
        { sampleServer with connHandle := 1 }).self.error = Error.ERROR_NONE ∧
     (ImprovServer.gattSvrChrRpcWrite sampleLib hostProvisionOk [1, 0, 255]
        { sampleServer with connHandle := 1 }).calls =
       [Call.malloc 3, Call.mbuf_to_flat 3, Call.parse [1, 0, 255],
        Call.state_write State.STATE_PROVISIONING, Call.notify 1 0 [3],
        Call.provision [] [], Call.state_write State.STATE_PROVISIONED,
        Call.notify 1 0 [4]]) := by
  refine ⟨?_, rfl, rfl, rfl, rfl⟩
  intro L h b rest c ssid password s Lrej o
  by_cases hp : h.onProvision (c_str ssid) (c_str password) = ESP_OK
  · simp [o, Lrej, ImprovServer.gattSvrChrRpcWrite, ImprovServer.gattSvrChrStatusNotify,
      ImprovServer.gattSvrChrErrorNotify, hp]
  · simp [o, Lrej, ImprovServer.gattSvrChrRpcWrite, ImprovServer.gattSvrChrStatusNotify,
      ImprovServer.gattSvrChrErrorNotify, hp]

/-! ## C3: connect, then a write that provisions -/

/-- C3 (as stated, refuted): a successful connect whose handle is 0 followed by a
write of a well-formed payload with a succeeding callback: the handler moves `state`
to Provisioning and to Provisioned and emits no notification at either transition. -/
theorem C3_counterexample_handle_zero :
    (sampleLib.parse_improv_data homeFrame true).decodeError = false ∧
    (ImprovServer.gattSvrChrRpcWrite sampleLib hostProvisionOk homeFrame
      (ImprovServer.gapEvent sampleLib advOk
        (GapEvent.BLE_GAP_EVENT_CONNECT 0 0) sampleServer).self).calls =
      [Call.malloc 15, Call.mbuf_to_flat 15, Call.parse homeFrame,
       Call.state_write State.STATE_PROVISIONING,
       Call.provision [104, 111, 109, 101] [115, 101, 99, 114, 101, 116],
       Call.state_write State.STATE_PROVISIONED] := by
  constructor <;> rfl

/-- C3 (amended): for every state, every successful connect event whose connection
handle is not 0, followed by a non-empty write whose payload reaches the codec
(allocation and copy succeed) and decodes, with the provisioning callback returning
`ESP_OK`: `state` is Authorized and `error` None after the connect; the trace of the
write handler is allocation, copy, decode, `state` set to Provisioning, a status
notification to the handle carrying the byte of Provisioning, the callback, `state`
set to Provisioned, a status notification carrying the byte of Provisioned; `state`
is Provisioned and `error` None when the handler returns, and it returns 0. -/
theorem C3_connect_write_success (L : ImprovLib) (hc : AdvHost) (hw : RpcWriteHost)
    (om : List Nat) (conn_handle : Nat) (s : ImprovServer)
    (hconn : conn_handle ≠ 0) (hom : om ≠ [])
    (hmalloc : hw.mallocOk = true) (hflat : hw.flatRc = 0)
    (_hdec : (L.parse_improv_data om true).decodeError = false)
    (hcb : hw.onProvision (c_str (L.parse_improv_data om true).ssid)
        (c_str (L.parse_improv_data om true).password) = ESP_OK) :
    (ImprovServer.gapEvent L hc
        (GapEvent.BLE_GAP_EVENT_CONNECT 0 conn_handle) s).self.state
      = State.STATE_AUTHORIZED ∧
    (ImprovServer.gapEvent L hc
        (GapEvent.BLE_GAP_EVENT_CONNECT 0 conn_handle) s).self.error
      = Error.ERROR_NONE ∧
    (ImprovServer.gattSvrChrRpcWrite L hw om (ImprovServer.gapEvent L hc
        (GapEvent.BLE_GAP_EVENT_CONNECT 0 conn_handle) s).self).calls =
      [Call.malloc om.length, Call.mbuf_to_flat om.length, Call.parse om,
       Call.state_write State.STATE_PROVISIONING,
       Call.notify conn_handle s.statusHandle [L.stateByte State.STATE_PROVISIONING],
       Call.provision (c_str (L.parse_improv_data om true).ssid)
         (c_str (L.parse_improv_data om true).password),
       Call.state_write State.STATE_PROVISIONED,
       Call.notify conn_handle s.statusHandle [L.stateByte State.STATE_PROVISIONED]] ∧
    (ImprovServer.gattSvrChrRpcWrite L hw om (ImprovServer.gapEvent L hc
        (GapEvent.BLE_GAP_EVENT_CONNECT 0 conn_handle) s).self).self.state
      = State.STATE_PROVISIONED ∧
    (ImprovServer.gattSvrChrRpcWrite L hw om (ImprovServer.gapEvent L hc
        (GapEvent.BLE_GAP_EVENT_CONNECT 0 conn_handle) s).self).self.error
      = Error.ERROR_NONE ∧
    (ImprovServer.gattSvrChrRpcWrite L hw om (ImprovServer.gapEvent L hc
        (GapEvent.BLE_GAP_EVENT_CONNECT 0 conn_handle) s).self).ret = 0 := by
  have hlen : 0 < om.length := List.length_pos.mpr hom
  rw [gapEvent_connect_self]
  simp [ImprovServer.gattSvrChrRpcWrite, ImprovServer.gattSvrChrStatusNotify,
    hlen, hmalloc, hflat, hcb, hconn]

/-- C3, a run of the amended statement: connect with handle 1, then `homeFrame`. -/
theorem C3_connect_write_success_witness :
    ((1 : Nat) ≠ 0 ∧ homeFrame ≠ [] ∧ hostProvisionOk.mallocOk = true ∧
      hostProvisionOk.flatRc = 0 ∧
      (sampleLib.parse_improv_data homeFrame true).decodeError = false ∧
      hostProvisionOk.onProvision (c_str (sampleLib.parse_improv_data homeFrame true).ssid)
        (c_str (sampleLib.parse_improv_data homeFrame true).password) = ESP_OK) ∧
    ((ImprovServer.gapEvent sampleLib advOk
        (GapEvent.BLE_GAP_EVENT_CONNECT 0 1) sampleServer).self.state
      = State.STATE_AUTHORIZED ∧
    (ImprovServer.gapEvent sampleLib advOk
        (GapEvent.BLE_GAP_EVENT_CONNECT 0 1) sampleServer).self.error
      = Error.ERROR_NONE ∧
    (ImprovServer.gattSvrChrRpcWrite sampleLib hostProvisionOk homeFrame
      (ImprovServer.gapEvent sampleLib advOk
        (GapEvent.BLE_GAP_EVENT_CONNECT 0 1) sampleServer).self).calls =
      [Call.malloc homeFrame.length, Call.mbuf_to_flat homeFrame.length,
       Call.parse homeFrame,
       Call.state_write State.STATE_PROVISIONING,
       Call.notify 1 sampleServer.statusHandle
         [sampleLib.stateByte State.STATE_PROVISIONING],
       Call.provision (c_str (sampleLib.parse_improv_data homeFrame true).ssid)
         (c_str (sampleLib.parse_improv_data homeFrame true).password),
       Call.state_write State.STATE_PROVISIONED,
       Call.notify 1 sampleServer.statusHandle
         [sampleLib.stateByte State.STATE_PROVISIONED]] ∧
    (ImprovServer.gattSvrChrRpcWrite sampleLib hostProvisionOk homeFrame
      (ImprovServer.gapEvent sampleLib advOk
        (GapEvent.BLE_GAP_EVENT_CONNECT 0 1) sampleServer).self).self.state
      = State.STATE_PROVISIONED ∧
    (ImprovServer.gattSvrChrRpcWrite sampleLib hostProvisionOk homeFrame
      (ImprovServer.gapEvent sampleLib advOk
        (GapEvent.BLE_GAP_EVENT_CONNECT 0 1) sampleServer).self).self.error
      = Error.ERROR_NONE ∧
    (ImprovServer.gattSvrChrRpcWrite sampleLib hostProvisionOk homeFrame
      (ImprovServer.gapEvent sampleLib advOk
        (GapEvent.BLE_GAP_EVENT_CONNECT 0 1) sampleServer).self).ret = 0) :=
  ⟨⟨by decide, by decide, rfl, rfl, rfl, rfl⟩,
   C3_connect_write_success sampleLib advOk hostProvisionOk homeFrame 1 sampleServer
     (by decide) (by decide) rfl rfl rfl rfl⟩

/-! ## C4: connect, then a write whose provisioning fails -/

/-- C4 (as stated, refuted): a successful connect whose handle is 0 followed by a
write of a well-formed payload with a failing callback: `state` ends Provisioning and
`error` UnableToConnect, and the handler emits neither the status notification nor
the error notification. -/
theorem C4_counterexample_handle_zero :
    (sampleLib.parse_improv_data homeFrame true).decodeError = false ∧
    (ImprovServer.gattSvrChrRpcWrite sampleLib hostProvisionFail homeFrame
      (ImprovServer.gapEvent sampleLib advOk
        (GapEvent.BLE_GAP_EVENT_CONNECT 0 0) sampleServer).self).calls =
      [Call.malloc 15, Call.mbuf_to_flat 15, Call.parse homeFrame,
       Call.state_write State.STATE_PROVISIONING,
       Call.provision [104, 111, 109, 101] [115, 101, 99, 114, 101, 116]] ∧
    (ImprovServer.gattSvrChrRpcWrite sampleLib hostProvisionFail homeFrame
      (ImprovServer.gapEvent sampleLib advOk
        (GapEvent.BLE_GAP_EVENT_CONNECT 0 0) sampleServer).self).self.error
      = Error.ERROR_UNABLE_TO_CONNECT := by
  refine ⟨rfl, rfl, rfl⟩

/-- C4 (amended): for every state, every successful connect event whose connection
handle is not 0, followed by a non-empty write whose payload reaches the codec
(allocation and copy succeed) and decodes, with the provisioning callback returning
a value other than `ESP_OK`: `state` is Authorized after the connect; the trace of the
write handler is allocation, copy, decode, `state` set to Provisioning, a status
notification carrying the byte of Provisioning, the callback, and then exactly one
error notification, carrying the byte of UnableToConnect; `state` is never set to
Provisioned and is Provisioning when the handler returns, and `error` is
UnableToConnect. -/
theorem C4_connect_write_failure (L : ImprovLib) (hc : AdvHost) (hw : RpcWriteHost)
    (om : List Nat) (conn_handle : Nat) (s : ImprovServer)
    (hconn : conn_handle ≠ 0) (hom : om ≠ [])
    (hmalloc : hw.mallocOk = true) (hflat : hw.flatRc = 0)
    (_hdec : (L.parse_improv_data om true).decodeError = false)
    (hcb : hw.onProvision (c_str (L.parse_improv_data om true).ssid)
        (c_str (L.parse_improv_data om true).password) ≠ ESP_OK) :
    (ImprovServer.gapEvent L hc
        (GapEvent.BLE_GAP_EVENT_CONNECT 0 conn_handle) s).self.state
      = State.STATE_AUTHORIZED ∧
    (ImprovServer.gattSvrChrRpcWrite L hw om (ImprovServer.gapEvent L hc
        (GapEvent.BLE_GAP_EVENT_CONNECT 0 conn_handle) s).self).calls =
      [Call.malloc om.length, Call.mbuf_to_flat om.length, Call.parse om,
       Call.state_write State.STATE_PROVISIONING,
       Call.notify conn_handle s.statusHandle [L.stateByte State.STATE_PROVISIONING],
       Call.provision (c_str (L.parse_improv_data om true).ssid)
         (c_str (L.parse_improv_data om true).password),
       Call.notify conn_handle s.errorHandle
         [L.errorByte Error.ERROR_UNABLE_TO_CONNECT]] ∧
    (ImprovServer.gattSvrChrRpcWrite L hw om (ImprovServer.gapEvent L hc
        (GapEvent.BLE_GAP_EVENT_CONNECT 0 conn_handle) s).self).self.state
      = State.STATE_PROVISIONING ∧
    (ImprovServer.gattSvrChrRpcWrite L hw om (ImprovServer.gapEvent L hc
        (GapEvent.BLE_GAP_EVENT_CONNECT 0 conn_handle) s).self).self.error
      = Error.ERROR_UNABLE_TO_CONNECT := by
  have hlen : 0 < om.length := List.length_pos.mpr hom
  rw [gapEvent_connect_self]
  simp [ImprovServer.gattSvrChrRpcWrite, ImprovServer.gattSvrChrStatusNotify,
    ImprovServer.gattSvrChrErrorNotify, hlen, hmalloc, hflat, hcb, hconn]

/-- C4, a run of the amended statement: connect with handle 1, then `homeFrame` with
the callback failing. -/
theorem C4_connect_write_failure_witness :
    ((1 : Nat) ≠ 0 ∧ homeFrame ≠ [] ∧ hostProvisionFail.mallocOk = true ∧
      hostProvisionFail.flatRc = 0 ∧
      (sampleLib.parse_improv_data homeFrame true).decodeError = false ∧
      hostProvisionFail.onProvision
        (c_str (sampleLib.parse_improv_data homeFrame true).ssid)
        (c_str (sampleLib.parse_improv_data homeFrame true).password) ≠ ESP_OK) ∧
    ((ImprovServer.gapEvent sampleLib advOk
        (GapEvent.BLE_GAP_EVENT_CONNECT 0 1) sampleServer).self.state
      = State.STATE_AUTHORIZED ∧
    (ImprovServer.gattSvrChrRpcWrite sampleLib hostProvisionFail homeFrame
      (ImprovServer.gapEvent sampleLib advOk
        (GapEvent.BLE_GAP_EVENT_CONNECT 0 1) sampleServer).self).calls =
      [Call.malloc homeFrame.length, Call.mbuf_to_flat homeFrame.length,
       Call.parse homeFrame,
       Call.state_write State.STATE_PROVISIONING,
       Call.notify 1 sampleServer.statusHandle
         [sampleLib.stateByte State.STATE_PROVISIONING],
       Call.provision (c_str (sampleLib.parse_improv_data homeFrame true).ssid)
         (c_str (sampleLib.parse_improv_data homeFrame true).password),
       Call.notify 1 sampleServer.errorHandle
         [sampleLib.errorByte Error.ERROR_UNABLE_TO_CONNECT]] ∧
    (ImprovServer.gattSvrChrRpcWrite sampleLib hostProvisionFail homeFrame
      (ImprovServer.gapEvent sampleLib advOk
        (GapEvent.BLE_GAP_EVENT_CONNECT 0 1) sampleServer).self).self.state
      = State.STATE_PROVISIONING ∧
    (ImprovServer.gattSvrChrRpcWrite sampleLib hostProvisionFail homeFrame
      (ImprovServer.gapEvent sampleLib advOk
        (GapEvent.BLE_GAP_EVENT_CONNECT 0 1) sampleServer).self).self.error
      = Error.ERROR_UNABLE_TO_CONNECT) :=
  ⟨⟨by decide, by decide, rfl, rfl, rfl, by decide⟩,
   C4_connect_write_failure sampleLib advOk hostProvisionFail homeFrame 1 sampleServer
     (by decide) (by decide) rfl rfl rfl (by decide)⟩

/-! ## C5: connect -/

/-- C5: for every controller state and every `BLE_GAP_EVENT_CONNECT` event with status
0 and connection handle `conn_handle`, after `gapEvent` the stored connection handle
is `conn_handle`, `state` is Authorized and `error` is None, whatever they were
before; the handler returns `ESP_OK`. -/
theorem C5_connect_records_handle_and_resets (L : ImprovLib) (h : AdvHost)
    (conn_handle : Nat) (s : ImprovServer) :
    (ImprovServer.gapEvent L h
        (GapEvent.BLE_GAP_EVENT_CONNECT 0 conn_handle) s).self.connHandle = conn_handle ∧
    (ImprovServer.gapEvent L h
        (GapEvent.BLE_GAP_EVENT_CONNECT 0 conn_handle) s).self.state
      = State.STATE_AUTHORIZED ∧
    (ImprovServer.gapEvent L h
        (GapEvent.BLE_GAP_EVENT_CONNECT 0 conn_handle) s).self.error
      = Error.ERROR_NONE ∧
    (ImprovServer.gapEvent L h
        (GapEvent.BLE_GAP_EVENT_CONNECT 0 conn_handle) s).ret = ESP_OK := by
  rw [gapEvent_connect_self]
  refine ⟨rfl, rfl, rfl, ?_⟩
  simp [ImprovServer.gapEvent]

/-! ## C6: the stored handle over connect and disconnect events -/

/-- C6 (as stated, refuted): from the initial state, after the single event "connect,
status 0, handle 0" the last event is a successful connect and the stored connection
handle is 0. -/
theorem C6_counterexample_handle_zero :
    (gapEvents sampleLib [(advOk, GapEvent.BLE_GAP_EVENT_CONNECT 0 0)]
      sampleServer).connHandle = 0 := by
  rfl

/-- C6 (amended): for every finite sequence of connect and disconnect events delivered
to `gapEvent` from the initial state, the stored connection handle after the sequence
is the handle of the last event when that event is a successful connect (status 0)
and is 0 otherwise; so it is non-zero if and only if the last event is a successful
connect whose handle is itself non-zero. -/
theorem C6_handle_after_connect_disconnect (L : ImprovLib)
    (btname manufacturer model : List Nat) (events : List (AdvHost × GapEvent))
    (hev : ∀ e ∈ events,
      (∃ status c, e.2 = GapEvent.BLE_GAP_EVENT_CONNECT status c) ∨
      (∃ reason, e.2 = GapEvent.BLE_GAP_EVENT_DISCONNECT reason)) :
    (gapEvents L events (ImprovServer.new L btname manufacturer model)).connHandle =
      (match events.getLast? with
       | some (_, GapEvent.BLE_GAP_EVENT_CONNECT status c) => if status = 0 then c else 0
       | _ => 0) ∧
    ((gapEvents L events (ImprovServer.new L btname manufacturer model)).connHandle ≠ 0 ↔
      (match events.getLast? with
       | some (_, GapEvent.BLE_GAP_EVENT_CONNECT status c) => status = 0 ∧ c ≠ 0
       | _ => False)) := by
  rcases List.eq_nil_or_concat events with hnil | ⟨pre, e, hcat⟩
  · subst hnil
    simp [gapEvents, ImprovServer.new]
  · subst hcat
    obtain ⟨h, ev⟩ := e
    have hlast := hev (h, ev) (by simp)
    rw [List.concat_eq_append, gapEvents_concat]
    rcases hlast with ⟨status, c, hc⟩ | ⟨reason, hr⟩
    · simp only at hc
      subst hc
      by_cases hst : status = 0
      · subst hst
        simp [gapEvent_connect_self]
      · simp [gapEvent_connect_failed_self, hst]
    · simp only at hr
      subst hr
      simp [gapEvent_disconnect_self]

/-- C6, a run of the amended statement: connect 5, disconnect, connect 7. -/
theorem C6_handle_after_connect_disconnect_witness :
    (∀ e ∈ [(advOk, GapEvent.BLE_GAP_EVENT_CONNECT 0 5),
            (advOk, GapEvent.BLE_GAP_EVENT_DISCONNECT 19),
            (advOk, GapEvent.BLE_GAP_EVENT_CONNECT 0 7)],
      (∃ status c, e.2 = GapEvent.BLE_GAP_EVENT_CONNECT status c) ∨
      (∃ reason, e.2 = GapEvent.BLE_GAP_EVENT_DISCONNECT reason)) ∧
    (gapEvents sampleLib [(advOk, GapEvent.BLE_GAP_EVENT_CONNECT 0 5),
            (advOk, GapEvent.BLE_GAP_EVENT_DISCONNECT 19),
            (advOk, GapEvent.BLE_GAP_EVENT_CONNECT 0 7)]
        (ImprovServer.new sampleLib [100] [65] [77])).connHandle = 7 :=
  ⟨by simp,
   (C6_handle_after_connect_disconnect sampleLib [100] [65] [77]
      [(advOk, GapEvent.BLE_GAP_EVENT_CONNECT 0 5),
       (advOk, GapEvent.BLE_GAP_EVENT_DISCONNECT 19),
       (advOk, GapEvent.BLE_GAP_EVENT_CONNECT 0 7)] (by simp)).1⟩

/-! ## C7: allocation failure in the write handler -/

/-- C7 (the code departs from the claim): on a non-empty write for which `malloc`
returns no buffer, `gattSvrChrRpcWrite` returns 0, the success value, to the host
stack, not an ATT error; it changes no static member and, apart from the allocation
attempt, makes no call (no copy, no decode, no notification, no callback). -/
theorem C7_malloc_failure_returns_success (L : ImprovLib) (h : RpcWriteHost)
    (b : Nat) (rest : List Nat) (s : ImprovServer) :
    (ImprovServer.gattSvrChrRpcWrite L { h with mallocOk := false } (b :: rest) s).ret = 0 ∧
    (ImprovServer.gattSvrChrRpcWrite L { h with mallocOk := false } (b :: rest) s).self = s ∧
    (ImprovServer.gattSvrChrRpcWrite L { h with mallocOk := false } (b :: rest) s).calls =
      [Call.malloc (rest.length + 1)] := by
  simp [ImprovServer.gattSvrChrRpcWrite]

/-! ## C8: the notification helpers -/

/-- C8: for every controller state, `gattSvrChrStatusNotify` (respectively
`gattSvrChrErrorNotify`) leaves every static member unchanged; when the stored
connection handle is non-zero its trace is the single notify call addressed to that
handle and to the status (respectively error) attribute, carrying the one byte of the
current state (respectively error), and it returns what the host stack returned; when
the handle is zero the trace is empty and it returns 0; so the notify call is made if
and only if the handle is non-zero. -/
theorem C8_notify_iff_connected (L : ImprovLib) (notifyRc : Int) (s : ImprovServer) :
    ((ImprovServer.gattSvrChrStatusNotify L notifyRc s).self = s ∧
     (ImprovServer.gattSvrChrStatusNotify L notifyRc s).calls =
       (if s.connHandle ≠ 0
        then [Call.notify s.connHandle s.statusHandle [L.stateByte s.state]] else []) ∧
     (ImprovServer.gattSvrChrStatusNotify L notifyRc s).ret =
       (if s.connHandle ≠ 0 then notifyRc else 0) ∧
     (Call.notify s.connHandle s.statusHandle [L.stateByte s.state] ∈
        (ImprovServer.gattSvrChrStatusNotify L notifyRc s).calls ↔ s.connHandle ≠ 0)) ∧
    ((ImprovServer.gattSvrChrErrorNotify L notifyRc s).self = s ∧
     (ImprovServer.gattSvrChrErrorNotify L notifyRc s).calls =
       (if s.connHandle ≠ 0
        then [Call.notify s.connHandle s.errorHandle [L.errorByte s.error]] else []) ∧
     (ImprovServer.gattSvrChrErrorNotify L notifyRc s).ret =
       (if s.connHandle ≠ 0 then notifyRc else 0) ∧
     (Call.notify s.connHandle s.errorHandle [L.errorByte s.error] ∈
        (ImprovServer.gattSvrChrErrorNotify L notifyRc s).calls ↔ s.connHandle ≠ 0)) := by
  by_cases hc : s.connHandle = 0
  · simp [ImprovServer.gattSvrChrStatusNotify, ImprovServer.gattSvrChrErrorNotify, hc]
  · simp [ImprovServer.gattSvrChrStatusNotify, ImprovServer.gattSvrChrErrorNotify, hc]

/-! ## C9: the device-information reads -/

/-- C9 (the code departs from the claim): for every identity given to the constructor,
a read of the Manufacturer Name characteristic (UUID 0x2A29) through
`gattSvrChrDeviceInfo` appends the model string, and a read of the Model Number
characteristic (UUID 0x2A24) appends the manufacturer string: the two are swapped.
With manufacturer "Acme" and model "M1" the manufacturer read appends "M1". -/
theorem C9_device_info_strings_swapped :
    (∀ (L : ImprovLib) (btname manufacturer model : List Nat) (appendRc : Int),
      (ImprovServer.gattSvrChrDeviceInfo GATT_MANUFACTURER_NAME_UUID appendRc
        (ImprovServer.new L btname manufacturer model)).map (fun o => o.calls)
        = some [Call.mbuf_append (c_str model)] ∧
      (ImprovServer.gattSvrChrDeviceInfo GATT_MODEL_NUMBER_UUID appendRc
        (ImprovServer.new L btname manufacturer model)).map (fun o => o.calls)
        = some [Call.mbuf_append (c_str manufacturer)]) ∧
    (ImprovServer.gattSvrChrDeviceInfo 0x2A29 0 sampleServer).map (fun o => o.calls)
      = some [Call.mbuf_append [77, 49]] ∧
    (ImprovServer.gattSvrChrDeviceInfo 0x2A29 0 sampleServer).map (fun o => o.ret)
      = some 0 ∧
    sampleServer.manufacturerName = [65, 99, 109, 101] := by
  refine ⟨fun L btname manufacturer model appendRc => ⟨?_, ?_⟩, rfl, rfl, rfl⟩
  · simp [ImprovServer.gattSvrChrDeviceInfo, ImprovServer.new,
      GATT_MANUFACTURER_NAME_UUID, GATT_MODEL_NUMBER_UUID]
  · simp [ImprovServer.gattSvrChrDeviceInfo, ImprovServer.new,
      GATT_MODEL_NUMBER_UUID]

/-! ## C10: how `state` becomes Provisioned -/

/-- C10: over the step relation of all operations (GAP events, GATT reads, RPC-command
writes, the notification helpers, iterations of the advertising loop,
`StartAdvertising`, `StopAdvertising`), every step that starts with `state` other than
Provisioned and ends with `state` Provisioned is a write of the RPC-command
characteristic in whose trace the Wi-Fi provisioning callback was invoked, and the
callback returned `ESP_OK`. -/
theorem C10_provisioned_only_after_callback_success (L : ImprovLib) (op : Op)
    (s s2 : ImprovServer) (tr : List Call)
    (hstep : step L op s = some (s2, tr))
    (hbefore : s.state ≠ State.STATE_PROVISIONED)
    (hafter : s2.state = State.STATE_PROVISIONED) :
    match op with
    | Op.rpcWrite h om =>
      Call.provision (c_str (L.parse_improv_data om true).ssid)
        (c_str (L.parse_improv_data om true).password) ∈ tr ∧
      h.onProvision (c_str (L.parse_improv_data om true).ssid)
        (c_str (L.parse_improv_data om true).password) = ESP_OK
    | _ => False := by
  cases op with
  | gapEvent h event =>
    simp only [step, Option.some.injEq, Prod.mk.injEq] at hstep
    rcases gapEvent_state L h event s with hk | hk
    · rw [hstep.1, hafter] at hk
      exact hbefore hk.symm
    · rw [hstep.1, hafter] at hk
      cases hk
  | deviceInfoRead uuid appendRc =>
    simp only [step, ImprovServer.gattSvrChrDeviceInfo] at hstep
    split_ifs at hstep <;> simp at hstep <;>
      exact hbefore (by rw [hstep.1]; exact hafter)
  | statusRead appendRc =>
    simp [step, ImprovServer.gattSvrChrStatus] at hstep
    exact hbefore (by rw [hstep.1]; exact hafter)
  | errorRead appendRc =>
    simp [step, ImprovServer.gattSvrChrError] at hstep
    exact hbefore (by rw [hstep.1]; exact hafter)
  | rpcResultRead appendRc appendRc2 =>
    simp only [step, ImprovServer.gattSvrChrRpcResult] at hstep
    split_ifs at hstep <;> simp at hstep <;>
      exact hbefore (by rw [hstep.1]; exact hafter)
  | capabilitiesRead appendRc =>
    simp [step, ImprovServer.gattSvrChrCapabilities] at hstep
    exact hbefore (by rw [hstep.1]; exact hafter)
  | rpcWrite h om =>
    simp only [step, Option.some.injEq, Prod.mk.injEq] at hstep
    obtain ⟨hself, hcalls⟩ := hstep
    subst hself hcalls
    simp only
    rw [rpcWrite_state] at hafter
    by_cases hc : 0 < om.length ∧ h.mallocOk = true ∧ h.flatRc = 0
    · rw [if_pos hc] at hafter
      refine ⟨rpcWrite_provision_mem L h om s hc.1 hc.2.1 hc.2.2, ?_⟩
      by_contra hp
      rw [if_neg hp] at hafter
      cases hafter
    · rw [if_neg hc] at hafter
      exact absurd hafter hbefore
  | statusNotify notifyRc =>
    simp only [step, ImprovServer.gattSvrChrStatusNotify] at hstep
    split_ifs at hstep <;> simp at hstep <;>
      exact hbefore (by rw [hstep.1]; exact hafter)
  | errorNotify notifyRc =>
    simp only [step, ImprovServer.gattSvrChrErrorNotify] at hstep
    split_ifs at hstep <;> simp at hstep <;>
      exact hbefore (by rw [hstep.1]; exact hafter)
  | tick h =>
    simp only [step, Option.some.injEq, Prod.mk.injEq] at hstep
    have hk := advertiseTaskIter_state L h s hbefore
    rw [hstep.1, hafter] at hk
    exact hbefore hk.symm
  | StartAdvertising =>
    simp [step, ImprovServer.StartAdvertising] at hstep
    exact hbefore (by rw [← hstep.1] at hafter; exact hafter)
  | StopAdvertising =>
    simp [step, ImprovServer.StopAdvertising] at hstep
    exact hbefore (by rw [← hstep.1] at hafter; exact hafter)

/-- C10, a run of the statement: the write of `homeFrame` with a succeeding callback
on a connected controller in state Authorized. -/
theorem C10_provisioned_only_after_callback_success_witness :
    (step sampleLib (Op.rpcWrite hostProvisionOk homeFrame)
        { sampleServer with connHandle := 1 } =
      some ((ImprovServer.gattSvrChrRpcWrite sampleLib hostProvisionOk homeFrame
              { sampleServer with connHandle := 1 }).self,
            (ImprovServer.gattSvrChrRpcWrite sampleLib hostProvisionOk homeFrame
              { sampleServer with connHandle := 1 }).calls) ∧
     ({ sampleServer with connHandle := 1 } : ImprovServer).state
        ≠ State.STATE_PROVISIONED ∧
     (ImprovServer.gattSvrChrRpcWrite sampleLib hostProvisionOk homeFrame
        { sampleServer with connHandle := 1 }).self.state = State.STATE_PROVISIONED) ∧
    (Call.provision (c_str (sampleLib.parse_improv_data homeFrame true).ssid)
        (c_str (sampleLib.parse_improv_data homeFrame true).password) ∈
       (ImprovServer.gattSvrChrRpcWrite sampleLib hostProvisionOk homeFrame
          { sampleServer with connHandle := 1 }).calls ∧
     hostProvisionOk.onProvision (c_str (sampleLib.parse_improv_data homeFrame true).ssid)
        (c_str (sampleLib.parse_improv_data homeFrame true).password) = ESP_OK) :=
  ⟨⟨rfl, by decide, rfl⟩,
   C10_provisioned_only_after_callback_success sampleLib
     (Op.rpcWrite hostProvisionOk homeFrame) { sampleServer with connHandle := 1 }
     _ _ rfl (by decide) rfl⟩

/-! ## C11: a write while no connection is recorded -/

/-- C12: for every state in which advertising is already disabled and inactive
(`advertiseOn` and `advertising` both false), `StopAdvertising` returns the state
unchanged and the next loop iteration makes no advertise-stop, set-fields or
advertise-start call, whatever the host answers; for every state in which advertising
is already enabled (`advertiseOn` true), `StartAdvertising` returns the state
unchanged, so the next loop iteration has the same trace and result as without the
call. -/
theorem C12_start_stop_idempotent (L : ImprovLib) (h : TickHost) (s : ImprovServer) :
    (ImprovServer.StopAdvertising
        { s with advertiseOn := false, advertising := false }).self =
      { s with advertiseOn := false, advertising := false } ∧
    Call.adv_stop ∉ (ImprovServer.advertiseTaskIter L h
      (ImprovServer.StopAdvertising
        { s with advertiseOn := false, advertising := false }).self).calls ∧
    Call.adv_start ∉ (ImprovServer.advertiseTaskIter L h
      (ImprovServer.StopAdvertising
        { s with advertiseOn := false, advertising := false }).self).calls ∧
    (∀ fields, Call.adv_set_fields fields ∉ (ImprovServer.advertiseTaskIter L h
      (ImprovServer.StopAdvertising
        { s with advertiseOn := false, advertising := false }).self).calls) ∧
    (ImprovServer.StartAdvertising { s with advertiseOn := true }).self =
      { s with advertiseOn := true } ∧
    (ImprovServer.advertiseTaskIter L h
        (ImprovServer.StartAdvertising { s with advertiseOn := true }).self).calls =
      (ImprovServer.advertiseTaskIter L h { s with advertiseOn := true }).calls ∧
    (ImprovServer.advertiseTaskIter L h
        (ImprovServer.StartAdvertising { s with advertiseOn := true }).self).self =
      (ImprovServer.advertiseTaskIter L h { s with advertiseOn := true }).self := by
  have hstop : (ImprovServer.StopAdvertising
        { s with advertiseOn := false, advertising := false }).self =
      { s with advertiseOn := false, advertising := false } := rfl
  have hstart : (ImprovServer.StartAdvertising { s with advertiseOn := true }).self =
      { s with advertiseOn := true } := rfl
  rw [hstop, hstart]
  refine ⟨rfl, ?_, ?_, ?_, rfl, rfl, rfl⟩
  · by_cases hp : s.state = State.STATE_PROVISIONED <;>
      by_cases hc : s.connHandle = 0 <;>
      simp [ImprovServer.advertiseTaskIter, ImprovServer.provisionedSweep, hp, hc]
  · by_cases hp : s.state = State.STATE_PROVISIONED <;>
      by_cases hc : s.connHandle = 0 <;>
      simp [ImprovServer.advertiseTaskIter, ImprovServer.provisionedSweep, hp, hc]
  · intro fields
    by_cases hp : s.state = State.STATE_PROVISIONED <;>
      by_cases hc : s.connHandle = 0 <;>
      simp [ImprovServer.advertiseTaskIter, ImprovServer.provisionedSweep, hp, hc]

/-! ## C13: the sweep after provisioning -/

/-- C13: for every loop iteration that begins with `state` Provisioned and does not
take the stop branch, whatever the host answers (the terminate call included), the
trace begins with the wait of `AFTER_PROVISION_DELAY` = 2500 ms, followed by the
terminate call on the stored handle exactly when that handle is non-zero, followed by
`state` being set to Authorized; the rest of the iteration is the iteration of the
same controller in state Authorized, which makes no terminate call; `state` is
Authorized when the iteration ends. -/
theorem C13_provisioned_sweep (L : ImprovLib) (h : TickHost) (s : ImprovServer)
    (hstate : s.state = State.STATE_PROVISIONED)
    (hbranch : ¬ (s.advertising = true ∧ s.advertiseOn = false)) :
    AFTER_PROVISION_DELAY = 2500 ∧
    (ImprovServer.advertiseTaskIter L h s).calls =
      [Call.delay AFTER_PROVISION_DELAY] ++
      (if s.connHandle ≠ 0 then [Call.terminate s.connHandle] else []) ++
      [Call.state_write State.STATE_AUTHORIZED] ++
      (ImprovServer.advertiseTaskIter L h
        { s with state := State.STATE_AUTHORIZED }).calls ∧
    (∀ c, Call.terminate c ∉ (ImprovServer.advertiseTaskIter L h
        { s with state := State.STATE_AUTHORIZED }).calls) ∧
    (ImprovServer.advertiseTaskIter L h s).self =
      (ImprovServer.advertiseTaskIter L h
        { s with state := State.STATE_AUTHORIZED }).self ∧
    (ImprovServer.advertiseTaskIter L h s).self.state = State.STATE_AUTHORIZED := by
  have hauth : ({ s with state := State.STATE_AUTHORIZED } : ImprovServer).state
      ≠ State.STATE_PROVISIONED := by simp
  have hcond : (s.advertising && !s.advertiseOn) = false := by
    cases ha : s.advertising <;> cases ho : s.advertiseOn <;> simp_all
  have hself : (ImprovServer.advertiseTaskIter L h s).self =
      (ImprovServer.advertiseTaskIter L h
        { s with state := State.STATE_AUTHORIZED }).self := by
    unfold ImprovServer.advertiseTaskIter
    rw [provisionedSweep_state _ hauth, provisionedSweep_provisioned s hstate]
    simp only [hcond, Bool.false_eq_true, if_false]
    split_ifs <;> rfl
  refine ⟨rfl, ?_, fun c => advertiseTaskIter_no_terminate L h _ hauth c, hself, ?_⟩
  · unfold ImprovServer.advertiseTaskIter
    rw [provisionedSweep_state _ hauth, provisionedSweep_provisioned s hstate]
    simp only [hcond, Bool.false_eq_true, if_false]
    split_ifs <;> simp
  · rw [hself, advertiseTaskIter_state L h _ hauth]

/-- C13, a run of the statement: a connected controller (handle 1) in state
Provisioned with advertising enabled and active. -/
theorem C13_provisioned_sweep_witness :
    (provisionedServer.state = State.STATE_PROVISIONED ∧
     ¬ (provisionedServer.advertising = true ∧ provisionedServer.advertiseOn = false)) ∧
    (ImprovServer.advertiseTaskIter sampleLib tickOk provisionedServer).self.state
      = State.STATE_AUTHORIZED :=
  ⟨⟨rfl, by decide⟩,
   (C13_provisioned_sweep sampleLib tickOk provisionedServer rfl (by decide)).2.2.2.2⟩

/-! ## C14: the start branch of the loop -/

/-- C14 (the code departs from the claim): a loop iteration that takes the start
branch runs `advertise` with whatever `advertiseName` holds, and a failed
`ble_gap_adv_stop` in the steady-state cycle leaves `advertiseName` set.  From the
initial state, the run StartAdvertising, iteration (start), iteration (steady state,
first stop fails), StopAdvertising, iteration (stop), StartAdvertising reaches a state
with `advertiseOn` true, `advertising` false and `advertiseName` true; the next
iteration takes the start branch and hands the name payload (device name, transmit
power, no service UUID, no service data) to the host stack, not the ServiceData
payload.  It does leave `advertising` true. -/
theorem C14_start_branch_can_advertise_name :
    (∀ (L : ImprovLib) (h : TickHost) (s : ImprovServer),
      s.advertiseOn = true → s.advertising = false →
      (ImprovServer.advertiseTaskIter L h s).calls =
        s.provisionedSweep.2 ++
        (Call.adv_set_fields
          (ImprovServer.advFields L { s.provisionedSweep.1 with advertising := true }) ::
          (if h.adv.setFieldsRc = 0 then [Call.adv_start] else [])) ++
        [Call.delay 100] ∧
      (ImprovServer.advFields L
          { s.provisionedSweep.1 with advertising := true }).name =
        (if s.advertiseName = true then some s.deviceName else none) ∧
      (ImprovServer.advFields L
          { s.provisionedSweep.1 with advertising := true }).uuids128 =
        (if s.advertiseName = true then none else some s.serviceUuid) ∧
      (ImprovServer.advertiseTaskIter L h s).self.advertising = true) ∧
    (steps sampleLib
        [Op.StartAdvertising, Op.tick tickOk, Op.tick tickStopFails,
         Op.StopAdvertising, Op.tick tickOk, Op.StartAdvertising] sampleServer).map
      (fun t => (t.advertiseOn, t.advertising, t.advertiseName, t.state))
      = some (true, false, true, State.STATE_AUTHORIZED) ∧
    (steps sampleLib
        [Op.StartAdvertising, Op.tick tickOk, Op.tick tickStopFails,
         Op.StopAdvertising, Op.tick tickOk, Op.StartAdvertising] sampleServer).map
      (fun t => (ImprovServer.advertiseTaskIter sampleLib tickOk t).calls)
      = some
        [Call.adv_set_fields
          { flagDiscGen := true, flagBredrUnsup := true
            tx_pwr_lvl_is_present := true, txPwrLvlAuto := true
            name := some [100, 101, 118], name_len := 3, name_is_complete := true
            uuids128 := none, num_uuids128 := 0, uuids128_is_complete := false
            svc_data_uuid16 := none, svc_data_uuid16_len := 0 },
         Call.adv_start, Call.delay 100] := by
  refine ⟨?_, by decide, by decide⟩
  intro L h s hon hadv
  have hon1 : s.provisionedSweep.1.advertiseOn = true := by
    unfold ImprovServer.provisionedSweep
    split_ifs <;> simpa using hon
  have hadv1 : s.provisionedSweep.1.advertising = false := by
    unfold ImprovServer.provisionedSweep
    split_ifs <;> simpa using hadv
  have hname1 : s.provisionedSweep.1.advertiseName = s.advertiseName := by
    unfold ImprovServer.provisionedSweep
    split_ifs <;> rfl
  have hdev1 : s.provisionedSweep.1.deviceName = s.deviceName := by
    unfold ImprovServer.provisionedSweep
    split_ifs <;> rfl
  have huuid1 : s.provisionedSweep.1.serviceUuid = s.serviceUuid := by
    unfold ImprovServer.provisionedSweep
    split_ifs <;> rfl
  refine ⟨?_, ?_, ?_, ?_⟩
  · simp [ImprovServer.advertiseTaskIter, hon, hadv, hon1, hadv1, advertise_calls]
  · by_cases hn : s.advertiseName = true <;>
      simp [ImprovServer.advFields, hname1, hdev1, hn]
  · by_cases hn : s.advertiseName = true <;>
      simp [ImprovServer.advFields, hname1, huuid1, hn]
  · simp [ImprovServer.advertiseTaskIter, hon, hadv, hon1, hadv1]

/-! ## C15: the steady-state cycle -/

/-- C15: for every steady-state loop iteration (`advertiseOn` and `advertising` both
true, `state` not Provisioned) in which both advertise-stop calls succeed, the trace
is exactly: wait `ADVERTISE_NAME_EVERY_MSECS` (5000 ms), stop, `advertise` with the
name payload, wait `ADVERTISE_NAME_FOR_MSECS` (1000 ms), stop, `advertise` with the
ServiceData payload, where each `advertise` is the set-fields call with that payload
followed by the advertise-start call (made when the host stack accepted the fields);
so each `advertise` comes right after a stop.  The iteration ends with
`advertiseName` false and `advertising` true. -/
theorem C15_steady_state_cycle (L : ImprovLib) (h : TickHost) (s : ImprovServer)
    (hon : s.advertiseOn = true) (hadv : s.advertising = true)
    (hstate : s.state ≠ State.STATE_PROVISIONED)
    (hstop : h.stopRc = 0) (hstop2 : h.stopRc2 = 0) :
    (ADVERTISE_NAME_EVERY_MSECS = 5000 ∧ ADVERTISE_NAME_FOR_MSECS = 1000) ∧
    (ImprovServer.advertiseTaskIter L h s).calls =
      [Call.delay ADVERTISE_NAME_EVERY_MSECS, Call.adv_stop] ++
      (ImprovServer.advertise L h.adv { s with advertiseName := true }).calls ++
      [Call.delay ADVERTISE_NAME_FOR_MSECS, Call.adv_stop] ++
      (ImprovServer.advertise L h.adv2 { s with advertiseName := false }).calls ∧
    (ImprovServer.advertise L h.adv { s with advertiseName := true }).calls =
      Call.adv_set_fields
        { flagDiscGen := true, flagBredrUnsup := true
          tx_pwr_lvl_is_present := true, txPwrLvlAuto := true
          name := some s.deviceName, name_len := s.deviceName.length % 256
          name_is_complete := true
          uuids128 := none, num_uuids128 := 0, uuids128_is_complete := false
          svc_data_uuid16 := none, svc_data_uuid16_len := 0 } ::
        (if h.adv.setFieldsRc = 0 then [Call.adv_start] else []) ∧
    (ImprovServer.advertise L h.adv2 { s with advertiseName := false }).calls =
      Call.adv_set_fields
        { flagDiscGen := true, flagBredrUnsup := true
          tx_pwr_lvl_is_present := false, txPwrLvlAuto := false
          name := none, name_len := 0, name_is_complete := false
          uuids128 := some s.serviceUuid, num_uuids128 := 1
          uuids128_is_complete := false
          svc_data_uuid16 := some [0x77, 0x46, L.stateByte s.state % 256, 0, 0, 0, 0, 0]
          svc_data_uuid16_len := 8 } ::
        (if h.adv2.setFieldsRc = 0 then [Call.adv_start] else []) ∧
    (ImprovServer.advertiseTaskIter L h s).self.advertiseName = false ∧
    (ImprovServer.advertiseTaskIter L h s).self.advertising = true ∧
    (ImprovServer.advertiseTaskIter L h s).self.state = s.state := by
  refine ⟨⟨rfl, rfl⟩, ?_, ?_, ?_, ?_, ?_, advertiseTaskIter_state L h s hstate⟩
  · unfold ImprovServer.advertiseTaskIter
    rw [provisionedSweep_state s hstate]
    simp [hon, hadv, hstop, hstop2, advertise_calls, advertise_self]
  · simp [advertise_calls, ImprovServer.advFields]
  · simp [advertise_calls, ImprovServer.advFields]
  · unfold ImprovServer.advertiseTaskIter
    rw [provisionedSweep_state s hstate]
    simp [hon, hadv, hstop, hstop2, advertise_self]
  · unfold ImprovServer.advertiseTaskIter
    rw [provisionedSweep_state s hstate]
    simp [hon, hadv, hstop, hstop2, advertise_self]

/-- C15, a run of the statement: the steady-state iteration of `advertisingServer`
with every host call succeeding. -/
theorem C15_steady_state_cycle_witness :
    (advertisingServer.advertiseOn = true ∧ advertisingServer.advertising = true ∧
      advertisingServer.state ≠ State.STATE_PROVISIONED ∧
      tickOk.stopRc = 0 ∧ tickOk.stopRc2 = 0) ∧
    (ImprovServer.advertiseTaskIter sampleLib tickOk advertisingServer).calls =
      [Call.delay 5000, Call.adv_stop,
       Call.adv_set_fields
        { flagDiscGen := true, flagBredrUnsup := true
          tx_pwr_lvl_is_present := true, txPwrLvlAuto := true
          name := some [100, 101, 118], name_len := 3, name_is_complete := true
          uuids128 := none, num_uuids128 := 0, uuids128_is_complete := false
          svc_data_uuid16 := none, svc_data_uuid16_len := 0 },
       Call.adv_start, Call.delay 1000, Call.adv_stop,
       Call.adv_set_fields
        { flagDiscGen := true, flagBredrUnsup := true
          tx_pwr_lvl_is_present := false, txPwrLvlAuto := false
          name := none, name_len := 0, name_is_complete := false
          uuids128 := some advertisingServer.serviceUuid, num_uuids128 := 1
          uuids128_is_complete := false
          svc_data_uuid16 := some [0x77, 0x46, 2, 0, 0, 0, 0, 0]
          svc_data_uuid16_len := 8 },
       Call.adv_start] :=
  ⟨⟨rfl, rfl, by decide, rfl, rfl⟩,
   (C15_steady_state_cycle sampleLib tickOk advertisingServer rfl rfl (by decide)
      rfl rfl).2.1⟩

/-! ## C16: the ServiceData payload -/

end improvserver
